import Mathlib

/-!
Verification of the EEA QC rule parser and semantic analyzer.

A shallow embedding of `back/parser/qc_parser.py` (classes
`SQLSemanticExtractor` and `QCParser`) and of
`back/QC_GENERATOR/qc_semantic_analyzer.py` (class `QCSemanticAnalyzer`).

Python strings are modelled as Lean `String` (the inputs of interest are
ASCII).  Python `set`s are modelled as duplicate-free lists in insertion
order, sorted on output exactly where the source calls `sorted(list(...))`.
Python exceptions are modelled with `Except String`: a function that can
raise returns `.error msg`.  The external SQL parser (`sqlglot.parse_one`)
is modelled as an oracle `String → ParseResult` passed to the orchestrator;
the AST it produces is modelled by the inductive `Ast`, whose constructors
carry exactly the node attributes that `SQLSemanticExtractor._walk_ast`
reads.
-/

namespace QC

/-! ### Python string primitives -/

/-- Python `\s` (ASCII): space, tab, newline, carriage return, vertical tab,
form feed. -/
def pyIsSpace (c : Char) : Bool :=
  c = ' ' || c = '\t' || c = '\n' || c = '\r' || c = Char.ofNat 11 || c = Char.ofNat 12

/-- Python regex `\w` over the ASCII inputs in scope: letters, digits, underscore. -/
def isWordChar (c : Char) : Bool :=
  c.isAlphanum || c = '_'

/-- The character class `[0-9.]`. -/
def isDigitDot (c : Char) : Bool :=
  c.isDigit || c = '.'

/-- Splitting a character list at every separator matched by `p`,
keeping empty pieces (the accumulator holds the current piece reversed). -/
def splitPredAux (p : Char → Bool) : List Char → List Char → List String
  | [], acc => [String.mk acc.reverse]
  | d :: rest, acc =>
      if p d then String.mk acc.reverse :: splitPredAux p rest []
      else splitPredAux p rest (d :: acc)

/-- Python `str.split(sep)` for a one-character separator (used for
`col.split('.')` and the dot handling of `float`). -/
def splitOnChar (c : Char) (s : String) : List String :=
  splitPredAux (fun d => d = c) s.data []

/-- `sep.join(parts)`. -/
def joinSep (sep : String) : List String → String
  | [] => ""
  | [x] => x
  | x :: xs => x ++ sep ++ joinSep sep xs

/-- Python `str.lower()` (ASCII). -/
def pyLower (s : String) : String :=
  String.mk (s.data.map Char.toLower)

/-- Python `str.strip()`. -/
def pyStrip (s : String) : String :=
  String.mk (((s.data.dropWhile pyIsSpace).reverse.dropWhile pyIsSpace).reverse)

/-- `startsWithCL needle l`: `l` starts with `needle`. -/
def startsWithCL : List Char → List Char → Bool
  | [], _ => true
  | _ :: _, [] => false
  | p :: ps, c :: cs => c = p && startsWithCL ps cs

/-- `hasSubCL needle l`: `needle` occurs as a contiguous run inside `l`. -/
def hasSubCL (needle : List Char) : List Char → Bool
  | [] => startsWithCL needle []
  | c :: tl => startsWithCL needle (c :: tl) || hasSubCL needle tl

/-- Python `needle in hay` on strings (substring test). -/
def strHas (hay needle : String) : Bool :=
  hasSubCL needle.data hay.data

/-- Python `str.split()` with no argument: split on whitespace runs,
dropping empty pieces. -/
def pySplitWs (s : String) : List String :=
  (splitPredAux pyIsSpace s.data []).filter (fun w => w != "")

/-- Value of a string of decimal digits (`""` counts as 0, as in the
fractional part of Python `float("5.")`). -/
def natOfDigits (s : String) : Nat :=
  s.data.foldl (fun acc c => acc * 10 + (c.toNat - 48)) 0

/-- Python `float(v)` restricted to the strings the range regex can
produce, i.e. non-empty strings over `[0-9.]`.  Such a string converts
exactly when it contains at most one dot and at least one digit; the
result is modelled as an exact rational. -/
def floatOfRangeToken (s : String) : Option Rat :=
  match splitOnChar '.' s with
  | [a] => some ((natOfDigits a : Rat))
  | [a, b] =>
      if a = "" && b = "" then none
      else some ((natOfDigits a : Rat) + (natOfDigits b : Rat) / (10 : Rat) ^ b.length)
  | _ => none

/-- The single-quote character (code 39). -/
def quoteChar : Char := Char.ofNat 39

/-! ### SQLSemanticExtractor: AST model and state

`qc_parser.py`, class `SQLSemanticExtractor`.  Each `Ast` constructor
corresponds to one arm of the `isinstance` dispatch in `_walk_ast`; it
carries the attribute values that arm reads, plus the node's children
(`node.iter_expressions()`), which are always walked afterwards. -/

/-- The name parts `_get_qualified_name` looks at on a table or column
node.  An absent or empty attribute is modelled as `""`; `thisText` is
`str(node.this)` when `node.this` is truthy (else `""`), `nodeText` is
`str(node)`. -/
structure RefParts where
  catalog : String := ""
  db : String := ""
  table : String := ""
  name : String := ""
  thisText : String := ""
  nodeText : String := ""
deriving DecidableEq, Repr

/-- `SQLSemanticExtractor._get_qualified_name`. -/
def getQualifiedName (p : RefParts) : String :=
  let parts : List String :=
    (if p.catalog != "" then [p.catalog] else [])
      ++ (if p.db != "" then [p.db] else [])
      ++ (if p.table != "" then [p.table] else [])
      ++ (if p.name != "" then [p.name] else [])
  let parts := if parts.isEmpty && p.thisText != "" then [p.thisText] else parts
  if parts.isEmpty then p.nodeText else joinSep "." parts

/-- One entry of `self.joins`. -/
structure JoinInfo where
  type : String
  table : Option String
  onCondition : Option String
deriving DecidableEq, Repr

/-- One entry of `self.where_conditions`. -/
structure WhereInfo where
  condition : String
  type : String
deriving DecidableEq, Repr

/-- One entry of `self.select_expressions` (also the per-expression data
carried on a SELECT node). -/
structure SelectOut where
  expression : String
  aliasText : Option String
  type : String
deriving DecidableEq, Repr

/-- One entry of `self.aggregations`. -/
structure AggInfo where
  function : String
  argument : Option String
deriving DecidableEq, Repr

/-- One entry of `self.literals`. -/
structure LitInfo where
  value : String
  type : String
deriving DecidableEq, Repr

/-- The five sqlglot aggregate classes matched by
`isinstance(node, (exp.Count, exp.Sum, exp.Avg, exp.Min, exp.Max))`. -/
inductive AggKind where
  | count | sum | avg | minA | maxA
deriving DecidableEq, Repr

/-- `type(node).__name__` for an aggregate node. -/
def AggKind.typeName : AggKind → String
  | .count => "Count"
  | .sum => "Sum"
  | .avg => "Avg"
  | .minA => "Min"
  | .maxA => "Max"

/-- A parsed SQL expression tree, as seen by `_walk_ast`.  The constructor
chosen for a node is the first `isinstance` test it satisfies, mirroring
the class hierarchy (the five aggregate classes are subclasses of
`exp.Func`, so an aggregate node is `agg`, never `funcNode`).  `otherNode`
is any node matching none of the tests. -/
inductive Ast where
  | table (parts : RefParts) (children : List Ast)
  | column (parts : RefParts) (children : List Ast)
  | join (kindArg : Option String) (thisText : Option String) (onText : Option String)
      (children : List Ast)
  | whereNode (condText : String) (condKind : String) (children : List Ast)
  | selectNode (exprs : List SelectOut) (children : List Ast)
  | agg (kind : AggKind) (argText : Option String) (children : List Ast)
  | funcNode (kindName : String) (children : List Ast)
  | opNode (key : String) (children : List Ast)
  | litNode (value : String) (isStr : Bool) (children : List Ast)
  | subquery (children : List Ast)
  | otherNode (kindName : String) (children : List Ast)

/-- The mutable accumulators set up in `SQLSemanticExtractor.__init__`.
Set-valued fields are duplicate-free lists in insertion order. -/
structure ExtractorState where
  tables : List String := []
  columns : List String := []
  joins : List JoinInfo := []
  whereConditions : List WhereInfo := []
  selectExpressions : List SelectOut := []
  aggregations : List AggInfo := []
  functions : List String := []
  literals : List LitInfo := []
  operators : List String := []
  subqueries : Nat := 0
deriving DecidableEq, Repr

/-- Python `set.add`. -/
def addSet (l : List String) (x : String) : List String :=
  if l.contains x then l else l ++ [x]

mutual
/-- `SQLSemanticExtractor._walk_ast`: handle the node by the first matching
`isinstance` arm, then recurse into every child. -/
def walkAst : Ast → ExtractorState → ExtractorState
  | .table p cs, s => walkList cs { s with tables := addSet s.tables (getQualifiedName p) }
  | .column p cs, s => walkList cs { s with columns := addSet s.columns (getQualifiedName p) }
  | .join k t o cs, s =>
      walkList cs { s with joins := s.joins ++ [⟨k.getD "INNER", t, o⟩] }
  | .whereNode ct ck cs, s =>
      walkList cs { s with whereConditions := s.whereConditions ++ [⟨ct, ck⟩] }
  | .selectNode es cs, s =>
      walkList cs { s with selectExpressions := s.selectExpressions ++ es }
  | .agg k a cs, s =>
      walkList cs { s with aggregations := s.aggregations ++ [⟨AggKind.typeName k, a⟩] }
  | .funcNode kn cs, s => walkList cs { s with functions := addSet s.functions kn }
  | .opNode key cs, s => walkList cs { s with operators := addSet s.operators key }
  | .litNode v isStr cs, s =>
      walkList cs { s with literals := s.literals ++ [⟨v, if isStr then "string" else "number"⟩] }
  | .subquery cs, s => walkList cs { s with subqueries := s.subqueries + 1 }
  | .otherNode _ cs, s => walkList cs s

/-- The `for child in node.iter_expressions()` loop. -/
def walkList : List Ast → ExtractorState → ExtractorState
  | [], s => s
  | c :: cs, s => walkList cs (walkAst c s)
end

/-- Python `sorted` on a list of strings (lexicographic). -/
def sortStrings (l : List String) : List String :=
  l.insertionSort (· ≤ ·)

/-- `SQLSemanticExtractor._calculate_complexity`. -/
def calculateComplexity (s : ExtractorState) : Nat :=
  s.tables.length * 2 + s.joins.length * 5 + s.whereConditions.length * 3
    + s.aggregations.length * 4 + s.subqueries * 10 + s.functions.length * 2

/-- The success dictionary returned by `SQLSemanticExtractor.extract`
(key `parsed_successfully: True` is implied by the constructor). -/
structure SqlAnalysis where
  tables : List String
  columns : List String
  joins : List JoinInfo
  whereConditions : List WhereInfo
  selectExpressions : List SelectOut
  aggregations : List AggInfo
  functions : List String
  operators : List String
  literals : List LitInfo
  subqueryCount : Nat
  complexityScore : Nat
deriving DecidableEq, Repr

/-- Assembling the success dictionary from the extractor state
(`extract`, lines building the returned dict). -/
def buildAnalysis (s : ExtractorState) : SqlAnalysis where
  tables := sortStrings s.tables
  columns := sortStrings s.columns
  joins := s.joins
  whereConditions := s.whereConditions
  selectExpressions := s.selectExpressions
  aggregations := s.aggregations
  functions := sortStrings s.functions
  operators := sortStrings s.operators
  literals := s.literals
  subqueryCount := s.subqueries
  complexityScore := calculateComplexity s

/-- Outcome of the external `sqlglot.parse_one` call: a tree, or an
exception with its message and class name. -/
inductive ParseResult where
  | ok (ast : Ast)
  | err (msg : String) (kind : String)

/-- Return value of `SQLSemanticExtractor.extract`: the success dictionary
or the failure dictionary `{parsed_successfully: False, error, error_type}`. -/
inductive ExtractResult where
  | success (a : SqlAnalysis)
  | failure (errorMessage : String) (errorKind : String)
deriving DecidableEq, Repr

/-- `SQLSemanticExtractor.extract` on an extractor whose accumulators hold
`s`: parse (outcome supplied by the oracle), walk the tree from the current
state, and build the result; any exception is caught and reported as the
failure dictionary.  Returns the result together with the instance state
after the call. -/
def extractFrom (s : ExtractorState) (pr : ParseResult) : ExtractResult × ExtractorState :=
  match pr with
  | .ok ast =>
      let s2 := walkAst ast s
      (.success (buildAnalysis s2), s2)
  | .err m k => (.failure m k, s)

/-- `SQLSemanticExtractor().extract(...)`: extraction on a freshly
constructed instance, as `QCParser._parse_qc_rule` performs it. -/
def extract (pr : ParseResult) : ExtractResult :=
  (extractFrom {} pr).1

end QC

namespace QC

/-! ### Regex models

Executable models of the three `re.findall` uses in
`qc_semantic_analyzer.py`, with Python's leftmost, non-overlapping scan
semantics.  Scanning is written with an explicit fuel equal to the input
length; every successful match consumes at least one character, so this
fuel never runs out. -/

/-- Match a literal character sequence at the head of `l`, returning the
remainder. -/
def dropLit : List Char → List Char → Option (List Char)
  | [], l => some l
  | _ :: _, [] => none
  | p :: ps, c :: cs => if c = p then dropLit ps cs else none

/-- One match attempt of `(\w+)\s*OP\s*([0-9.]+)` anchored at the head of
`l` (the backtracking of `\w+` and `\s*` can never rescue a failed
attempt, because the operator characters are neither word nor space
characters).  Returns the two groups and the rest of the input. -/
def tryRangeMatch (op : List Char) (l : List Char) : Option (String × String × List Char) :=
  match l with
  | [] => none
  | c :: _ =>
    if isWordChar c then
      let w := l.takeWhile isWordChar
      let r1 := (l.dropWhile isWordChar).dropWhile pyIsSpace
      match dropLit op r1 with
      | none => none
      | some r2 =>
        let r3 := r2.dropWhile pyIsSpace
        let v := r3.takeWhile isDigitDot
        if v.isEmpty then none
        else some (String.mk w, String.mk v, r3.drop v.length)
    else none

/-- The scan loop of `re.findall` for the range patterns. -/
def findallRangeAux (op : List Char) : Nat → List Char → List (String × String)
  | 0, _ => []
  | _ + 1, [] => []
  | fuel + 1, c :: tl =>
    match tryRangeMatch op (c :: tl) with
    | some (f, v, rest) => (f, v) :: findallRangeAux op fuel rest
    | none => findallRangeAux op fuel tl

/-- `re.findall(r'(\w+)\s*OP\s*([0-9.]+)', s)`. -/
def findallRange (op : List Char) (s : String) : List (String × String) :=
  findallRangeAux op s.data.length s.data

/-- One match attempt of `'([^']*)'|(\d+)` anchored at the head of `l`:
first the quoted alternative, then the digit-run alternative.  Returns the
pair of groups (the non-participating one is `""`, as in Python) and the
rest. -/
def tryValMatch (l : List Char) : Option ((String × String) × List Char) :=
  match l with
  | [] => none
  | c :: rest =>
    if c = quoteChar then
      let q := rest.takeWhile (fun d => !(d = quoteChar))
      match rest.drop q.length with
      | d :: rest2 => if d = quoteChar then some ((String.mk q, ""), rest2) else none
      | [] => none
    else if c.isDigit then
      let ds := (c :: rest).takeWhile Char.isDigit
      some (("", String.mk ds), (c :: rest).drop ds.length)
    else none

/-- The scan loop of `re.findall` for the value pattern. -/
def findallValsAux : Nat → List Char → List (String × String)
  | 0, _ => []
  | _ + 1, [] => []
  | fuel + 1, c :: tl =>
    match tryValMatch (c :: tl) with
    | some (gs, rest) => gs :: findallValsAux fuel rest
    | none => findallValsAux fuel tl

/-- `re.findall(r"'([^']*)'|(\d+)", s)`. -/
def findallVals (s : String) : List (String × String) :=
  findallValsAux s.data.length s.data

/-- One match attempt of `in\s*\((.*?)\)` anchored at the head of `l`
(applied to already lower-cased text, so the `re.IGNORECASE` flag is
immaterial).  `.` does not match a newline, and the lazy group stops at
the first `)`. -/
def tryInClause (l : List Char) : Option (String × List Char) :=
  match l with
  | 'i' :: 'n' :: rest =>
      let r2 := rest.dropWhile pyIsSpace
      match r2 with
      | '(' :: r3 =>
        let cap := r3.takeWhile (fun c => !(c = ')') && !(c = '\n'))
        match r3.drop cap.length with
        | ')' :: r4 => some (String.mk cap, r4)
        | _ => none
      | _ => none
  | _ => none

/-- The scan loop of `re.findall` for the IN-clause pattern. -/
def findallInClausesAux : Nat → List Char → List String
  | 0, _ => []
  | _ + 1, [] => []
  | fuel + 1, c :: tl =>
    match tryInClause (c :: tl) with
    | some (cap, rest) => cap :: findallInClausesAux fuel rest
    | none => findallInClausesAux fuel tl

/-- `re.findall(r'in\s*\((.*?)\)', s, re.IGNORECASE)` on lower-cased `s`. -/
def findallInClauses (s : String) : List String :=
  findallInClausesAux s.data.length s.data

end QC

namespace QC

/-! ### QCSemanticAnalyzer data model

`qc_semantic_analyzer.py`, class `QCSemanticAnalyzer`. -/

/-- The `metadata` sub-dictionary built by `QCParser._parse_qc_rule`. -/
structure Metadata where
  table : String := ""
  field : String := ""
  code : String := ""
  name : String := ""
  description : String := ""
  message : String := ""
  type : String := ""
  level : String := ""
  creationMode : Bool := false
  status : Bool := false
  valid : Bool := false
deriving DecidableEq, Repr

/-- The `expression` sub-dictionary built by `QCParser._parse_qc_rule`. -/
structure ExpressionInfo where
  rawSql : String := ""
  hasSql : Bool := false
  sqlAnalysis : Option ExtractResult := none
deriving DecidableEq, Repr

/-- A typed constraint dictionary appended to `semantic['constraints']`;
the constructor is the dictionary's `type` tag. -/
inductive Constraint where
  | range (field : String) (boundType : String) (value : Rat) (inclusive : Bool)
  | valueList (allowedValues : List String) (operator : String)
  | notNull (field : String) (required : Bool)
  | unique (fields : List String) (scope : String)
  | foreignKey (field : String) (references : List String)
  | dataType (field : String) (expectedType : String)
deriving DecidableEq, Repr

/-- The `semantic` dictionary initialized in `QCSemanticAnalyzer.analyze`. -/
structure Semantic where
  category : Option String := none
  subcategory : Option String := none
  constraints : List Constraint := []
  fieldsChecked : List String := []
  referenceTables : List String := []
  description : String := ""
deriving DecidableEq, Repr

/-- The fresh `semantic` dictionary of `analyze`. -/
def initSemantic : Semantic := {}

/-- A fully assembled rule record. -/
structure QcRule where
  metadata : Metadata
  expression : ExpressionInfo
  semanticAnalysis : Option Semantic := none
deriving DecidableEq, Repr

/-- `sql_analysis.get('joins')` as read in `_categorize_qc`: the failure
dictionary has no such key (modelled as `[]`, which is equally falsy). -/
def analysisJoins (e : ExpressionInfo) : List JoinInfo :=
  match e.sqlAnalysis with
  | some (.success a) => a.joins
  | _ => []

/-- `sql_analysis.get('columns')`, same convention. -/
def analysisColumns (e : ExpressionInfo) : List String :=
  match e.sqlAnalysis with
  | some (.success a) => a.columns
  | _ => []

/-- `sql_analysis.get('tables')`, same convention. -/
def analysisTables (e : ExpressionInfo) : List String :=
  match e.sqlAnalysis with
  | some (.success a) => a.tables
  | _ => []

/-- The test `sql_analysis and sql_analysis.get('parsed_successfully')`
of `_extract_constraints`. -/
def analysisSuccess (e : ExpressionInfo) : Option SqlAnalysis :=
  match e.sqlAnalysis with
  | some (.success a) => some a
  | _ => none

/-! ### Categorization (`_categorize_qc`)

The Python method is one body with three sequential parts: the metadata
keyword chain, the SQL-pattern chain guarded by
`if not semantic['category'] and expression.get('has_sql')`, and the
default.  Each part is one definition here; `categorizeQc` composes them. -/

/-- Lines 74–133: the metadata keyword `if`/`elif` chain. -/
def phase1Categorize (m : Metadata) (semantic : Semantic) : Semantic :=
  let qcName := pyLower m.name
  let qcCode := pyLower m.code
  let qcDesc := pyLower m.description
  if strHas qcName "cardinality" || strHas qcCode "fc" then
    { semantic with
        category := some "CARDINALITY"
        subcategory := some "REQUIRED_FIELD"
        description := "Checks if required field is present and not empty" }
  else if strHas qcName "field type" || strHas qcCode "ft" then
    let sub :=
      if strHas qcName "date" then "DATE_FORMAT"
      else if strHas qcName "number" || strHas qcName "integer" || strHas qcName "decimal" then
        "NUMERIC_TYPE"
      else if strHas qcName "codelist" then "CODELIST_VALUE"
      else "TYPE_VALIDATION"
    { semantic with
        category := some "DATA_TYPE"
        subcategory := some sub
        description := "Validates field has correct data type: " ++ qcName }
  else if strHas qcName "uniqueconstraint" || strHas qcCode "tu" then
    { semantic with
        category := some "UNIQUENESS"
        subcategory := some "COMPOSITE_KEY"
        description := "Validates uniqueness of field combination" }
  else if strHas qcName "link" || strHas qcCode "tc" then
    { semantic with
        category := some "REFERENTIAL_INTEGRITY"
        subcategory := some "FOREIGN_KEY"
        description := "Validates reference to another table/list" }
  else if strHas qcName "mandatory" || strHas qcDesc "mandatory" then
    let sub :=
      if strHas qcName "missing" then some "MISSING_UNJUSTIFIED"
      else if strHas qcName "reported" then some "UNEXPECTED_VALUE"
      else semantic.subcategory
    { semantic with
        category := some "MANDATORY"
        subcategory := sub
        description := "Validates mandatory field rules" }
  else if strHas qcName "conflict" || strHas qcDesc "conflict" then
    { semantic with
        category := some "CONFLICT"
        subcategory := some "LOGICAL_INCONSISTENCY"
        description := "Detects conflicting or contradictory values" }
  else if strHas qcName "limit" || strHas qcName "range" then
    let sub :=
      if strHas qcName "acceptable" then some "ACCEPTABLE_RANGE"
      else if strHas qcName "expected" then some "EXPECTED_RANGE"
      else semantic.subcategory
    { semantic with
        category := some "RANGE_CHECK"
        subcategory := sub
        description := "Validates value is within acceptable range" }
  else if strHas qcName "constraint" then
    { semantic with
        category := some "CONSISTENCY"
        subcategory := some "VALUE_CONSTRAINT"
        description := "Validates defined constraints" }
  else semantic

/-- Lines 135–167: the SQL-pattern chain.  Note the guard is
`expression.get('has_sql')`, not parse success; the first three branches
test the lower-cased raw predicate text, only the last two read the
analysis dictionary. -/
def phase2Categorize (e : ExpressionInfo) (semantic : Semantic) : Semantic :=
  let rawSql := pyLower e.rawSql
  if semantic.category.isNone && e.hasSql then
    if strHas rawSql "is null" || strHas rawSql "is not null" then
      { semantic with
          category := some "NULL_CHECK"
          subcategory := some "NULL_VALIDATION"
          description := "Checks for null or missing values" }
    else if strHas rawSql " in (" then
      { semantic with
          category := some "VALUE_LIST"
          subcategory := some "ALLOWED_VALUES"
          description := "Validates against list of allowed values" }
    else if strHas rawSql "between" || strHas rawSql ">" || strHas rawSql "<"
        || strHas rawSql ">=" || strHas rawSql "<=" then
      { semantic with
          category := some "RANGE_CHECK"
          subcategory := some "NUMERIC_RANGE"
          description := "Validates numeric range constraints" }
    else if (analysisJoins e).length > 0 then
      { semantic with
          category := some "REFERENTIAL_INTEGRITY"
          subcategory := some "CROSS_TABLE_VALIDATION"
          description := "Validates data across multiple tables" }
    else if (analysisColumns e).length > 2 then
      { semantic with
          category := some "CROSS_FIELD"
          subcategory := some "MULTI_FIELD_VALIDATION"
          description := "Validates relationships between multiple fields" }
    else semantic
  else semantic

/-- Lines 169–173: the default when no branch fired. -/
def defaultCategorize (semantic : Semantic) : Semantic :=
  if semantic.category.isNone then
    { semantic with
        category := some "CONSISTENCY"
        subcategory := some "GENERAL_VALIDATION"
        description := "General data validation rule" }
  else semantic

/-- `QCSemanticAnalyzer._categorize_qc`. -/
def categorizeQc (m : Metadata) (e : ExpressionInfo) (semantic : Semantic) : Semantic :=
  defaultCategorize (phase2Categorize e (phase1Categorize m semantic))

/-! ### Constraint extraction (`_extract_constraints` and helpers) -/

/-- The pattern table of `_extract_range_constraints`: regex operator
characters, bound type, inclusiveness. -/
def rangeSpecs : List (List Char × String × Bool) :=
  [([ '>', '=' ], "MIN", true),
   ([ '>' ], "MIN", false),
   ([ '<', '=' ], "MAX", true),
   ([ '<' ], "MAX", false)]

/-- The inner loop of `_extract_range_constraints`: one constraint per
regex match; `float(value)` raises `ValueError` on a token such as
`"1.2.3"`, which aborts the whole per-row analysis. -/
def buildRangeConstraints (boundType : String) (inclusive : Bool) :
    List (String × String) → Except String (List Constraint)
  | [] => .ok []
  | (f, v) :: rest =>
    match floatOfRangeToken v with
    | none => .error ("ValueError: could not convert string to float: " ++ v)
    | some q =>
      (buildRangeConstraints boundType inclusive rest).map
        (fun cs => Constraint.range f boundType q inclusive :: cs)

/-- The outer loop of `_extract_range_constraints` over the four patterns. -/
def extractRangeConstraintsAux (rawSql : String) :
    List (List Char × String × Bool) → Except String (List Constraint)
  | [] => .ok []
  | (op, bt, inc) :: rest =>
    match buildRangeConstraints bt inc (findallRange op rawSql) with
    | .error e => .error e
    | .ok cs => (extractRangeConstraintsAux rawSql rest).map (fun cs2 => cs ++ cs2)

/-- `QCSemanticAnalyzer._extract_range_constraints` (its `metadata`
parameter is unused in the source). -/
def extractRangeConstraints (rawSql : String) : Except String (List Constraint) :=
  extractRangeConstraintsAux rawSql rangeSpecs

/-- `QCSemanticAnalyzer._extract_value_list_constraints`. -/
def extractValueListConstraints (rawSql : String) : List Constraint :=
  (findallInClauses rawSql).filterMap (fun m =>
    let valueList := (findallVals m).map (fun v => if v.1 != "" then v.1 else v.2)
    if valueList.isEmpty then none
    else some (Constraint.valueList valueList "IN"))

/-- The camel-case token test of `_extract_unique_fields`:
`word[0].islower() and any(c.isupper() for c in word)`. -/
def isCamelToken (w : String) : Bool :=
  match w.data with
  | [] => false
  | c :: _ => c.isLower && w.data.any Char.isUpper

/-- `re.sub(r'[,.]', '', word)`. -/
def stripPunct (w : String) : String :=
  String.mk (w.data.filter (fun c => !(c = ',') && !(c = '.')))

/-- `QCSemanticAnalyzer._extract_unique_fields`. -/
def extractUniqueFields (description : String) : List String :=
  (pySplitWs description).filterMap (fun w =>
    if isCamelToken w then
      let f := stripPunct w
      if f != "" then some f else none
    else none)

/-- `QCSemanticAnalyzer._extract_data_type`. -/
def extractDataType (qcName : String) : String :=
  let n := pyLower qcName
  if strHas n "date" then "DATE"
  else if strHas n "integer" then "INTEGER"
  else if strHas n "decimal" || strHas n "number" then "DECIMAL"
  else if strHas n "text" || strHas n "string" then "TEXT"
  else if strHas n "boolean" then "BOOLEAN"
  else "UNKNOWN"

/-- The column-name accumulation loop of `_extract_constraints`: append
each column's final dot-segment unless already present. -/
def addColsToFields (fields : List String) : List String → List String
  | [] => fields
  | col :: rest =>
    let colName := (splitOnChar '.' col).getLastD ""
    let fields2 := if fields.contains colName then fields else fields ++ [colName]
    addColsToFields fields2 rest

/-- `QCSemanticAnalyzer._extract_constraints`.  Fallible because the
RANGE_CHECK branch calls `float` on regex tokens. -/
def extractConstraints (m : Metadata) (e : ExpressionInfo) (semantic : Semantic) :
    Except String Semantic :=
  let field := m.field
  let rawSql := pyLower e.rawSql
  let fields1 := if field != "" then semantic.fieldsChecked ++ [field] else semantic.fieldsChecked
  let fields2 :=
    match analysisSuccess e with
    | some a => addColsToFields fields1 a.columns
    | none => fields1
  let semantic := { semantic with fieldsChecked := fields2 }
  if semantic.category = some "RANGE_CHECK" then
    match extractRangeConstraints rawSql with
    | .error err => .error err
    | .ok cs => .ok { semantic with constraints := semantic.constraints ++ cs }
  else if semantic.category = some "VALUE_LIST" then
    .ok { semantic with constraints := semantic.constraints ++ extractValueListConstraints rawSql }
  else if semantic.category = some "NULL_CHECK" ∨ semantic.category = some "CARDINALITY" then
    .ok { semantic with constraints := semantic.constraints ++ [Constraint.notNull field true] }
  else if semantic.category = some "UNIQUENESS" then
    .ok { semantic with constraints :=
            semantic.constraints ++ [Constraint.unique (extractUniqueFields m.description) "TABLE"] }
  else if semantic.category = some "REFERENTIAL_INTEGRITY" then
    let refTables :=
      if (analysisTables e).isEmpty then semantic.referenceTables else analysisTables e
    .ok { semantic with
            referenceTables := refTables
            constraints := semantic.constraints ++ [Constraint.foreignKey field refTables] }
  else if semantic.category = some "DATA_TYPE" then
    .ok { semantic with constraints :=
            semantic.constraints ++ [Constraint.dataType field (extractDataType m.name)] }
  else .ok semantic

/-- `QCSemanticAnalyzer.analyze`. -/
def analyze (rule : QcRule) : Except String QcRule :=
  let s1 := categorizeQc rule.metadata rule.expression initSemantic
  (extractConstraints rule.metadata rule.expression s1).map
    (fun s2 => { rule with semanticAnalysis := some s2 })

/-! ### Orchestrator (`QCParser`) -/

/-- One CSV row: the fixed column names, a missing key reading as `""`
(`row.get(key, "")`). -/
structure RawRow where
  table : String := ""
  field : String := ""
  code : String := ""
  qcName : String := ""
  qcDescription : String := ""
  message : String := ""
  typeOfQc : String := ""
  levelError : String := ""
  creationMode : String := ""
  status : String := ""
  valid : String := ""
  expression : String := ""
deriving DecidableEq, Repr

/-- `row.get(key, "").strip().lower() == "true"`. -/
def pyBoolTrue (s : String) : Bool :=
  pyLower (pyStrip s) = "true"

/-- `QCParser._parse_qc_rule`, with the external `sqlglot.parse_one`
outcome supplied by the oracle `parse`. -/
def parseQcRule (parse : String → ParseResult) (row : RawRow) : Except String QcRule :=
  let rawSql := pyStrip row.expression
  let qcRule : QcRule :=
    { metadata :=
        { table := pyStrip row.table
          field := pyStrip row.field
          code := pyStrip row.code
          name := pyStrip row.qcName
          description := pyStrip row.qcDescription
          message := pyStrip row.message
          type := pyStrip row.typeOfQc
          level := pyStrip row.levelError
          creationMode := pyBoolTrue row.creationMode
          status := pyBoolTrue row.status
          valid := pyBoolTrue row.valid }
      expression := { rawSql := rawSql, hasSql := rawSql != "", sqlAnalysis := none } }
  let qcRule :=
    if qcRule.expression.hasSql then
      { qcRule with expression :=
          { qcRule.expression with sqlAnalysis := some (extract (parse rawSql)) } }
    else qcRule
  analyze qcRule

/-- The three-bucket classification of `QCParser.get_statistics`
(lines 311–317). -/
def complexityBucket (score : Nat) : String :=
  if score < 10 then "simple" else if score < 30 then "medium" else "complex"

end QC

namespace QC

/-! ### Definitions used to state the verified properties -/

/-- The spec's complexity polynomial (§4.2):
`2·|tables| + 5·|joins| + 3·|whereConditions| + 4·|aggregations| +
10·subqueryCount + 2·|functions|`. -/
def scoreFormula (t j w a q f : Nat) : Nat :=
  2 * t + 5 * j + 3 * w + 4 * a + 10 * q + 2 * f

/-- Whether any of the eight phase-1 metadata keyword tests of
`_categorize_qc` fires. -/
def phase1Match (m : Metadata) : Bool :=
  let qcName := pyLower m.name
  let qcCode := pyLower m.code
  let qcDesc := pyLower m.description
  (strHas qcName "cardinality" || strHas qcCode "fc")
    || (strHas qcName "field type" || strHas qcCode "ft")
    || (strHas qcName "uniqueconstraint" || strHas qcCode "tu")
    || (strHas qcName "link" || strHas qcCode "tc")
    || (strHas qcName "mandatory" || strHas qcDesc "mandatory")
    || (strHas qcName "conflict" || strHas qcDesc "conflict")
    || (strHas qcName "limit" || strHas qcName "range")
    || strHas qcName "constraint"

/-- Whether the phase-2 SQL-pattern chain of `_categorize_qc` would fire
on `e` (guard and any of the five branch conditions). -/
def phase2Cond (e : ExpressionInfo) : Bool :=
  let rawSql := pyLower e.rawSql
  e.hasSql
    && (strHas rawSql "is null" || strHas rawSql "is not null"
        || strHas rawSql " in ("
        || strHas rawSql "between" || strHas rawSql ">" || strHas rawSql "<"
        || strHas rawSql ">=" || strHas rawSql "<="
        || decide ((analysisJoins e).length > 0)
        || decide ((analysisColumns e).length > 2))

mutual
/-- Number of subquery nodes in a tree (every node's children are
counted, whatever the node's own kind). -/
def subCountA : Ast → Nat
  | .subquery cs => subCountL cs + 1
  | .table _ cs | .column _ cs | .join _ _ _ cs | .whereNode _ _ cs | .selectNode _ cs
  | .agg _ _ cs | .funcNode _ cs | .opNode _ cs | .litNode _ _ cs | .otherNode _ cs =>
      subCountL cs
def subCountL : List Ast → Nat
  | [] => 0
  | c :: cs => subCountA c + subCountL cs
end

mutual
/-- The join entries contributed by a tree, in traversal order. -/
def joinItemsA : Ast → List JoinInfo
  | .join k t o cs => ⟨k.getD "INNER", t, o⟩ :: joinItemsL cs
  | .table _ cs | .column _ cs | .whereNode _ _ cs | .selectNode _ cs | .agg _ _ cs
  | .funcNode _ cs | .opNode _ cs | .litNode _ _ cs | .subquery cs | .otherNode _ cs =>
      joinItemsL cs
def joinItemsL : List Ast → List JoinInfo
  | [] => []
  | c :: cs => joinItemsA c ++ joinItemsL cs
end

mutual
/-- The aggregation entries contributed by a tree, in traversal order:
exactly one per aggregate node, children included. -/
def aggItemsA : Ast → List AggInfo
  | .agg k a cs => ⟨AggKind.typeName k, a⟩ :: aggItemsL cs
  | .table _ cs | .column _ cs | .join _ _ _ cs | .whereNode _ _ cs | .selectNode _ cs
  | .funcNode _ cs | .opNode _ cs | .litNode _ _ cs | .subquery cs | .otherNode _ cs =>
      aggItemsL cs
def aggItemsL : List Ast → List AggInfo
  | [] => []
  | c :: cs => aggItemsA c ++ aggItemsL cs
end

mutual
/-- The node kinds contributed to `functions` by a tree: exactly the
generic (non-aggregate) function-call nodes, children included. -/
def funcKindsA : Ast → List String
  | .funcNode kn cs => kn :: funcKindsL cs
  | .table _ cs | .column _ cs | .join _ _ _ cs | .whereNode _ _ cs | .selectNode _ cs
  | .agg _ _ cs | .opNode _ cs | .litNode _ _ cs | .subquery cs | .otherNode _ cs =>
      funcKindsL cs
def funcKindsL : List Ast → List String
  | [] => []
  | c :: cs => funcKindsA c ++ funcKindsL cs
end

/-- The semantic category of an orchestrator result, when one exists. -/
def categoryOf (r : Except String QcRule) : Option String :=
  match r with
  | .ok rec => rec.semanticAnalysis.bind (fun s => s.category)
  | .error _ => none

/-- The semantic subcategory of an orchestrator result. -/
def subcategoryOf (r : Except String QcRule) : Option String :=
  match r with
  | .ok rec => rec.semanticAnalysis.bind (fun s => s.subcategory)
  | .error _ => none

/-- The constraint list of an orchestrator result. -/
def constraintsOf (r : Except String QcRule) : Option (List Constraint) :=
  match r with
  | .ok rec => rec.semanticAnalysis.map (fun s => s.constraints)
  | .error _ => none

/-! ### Concrete inputs for the scenario theorems -/

/-- A one-character string holding a single quote, for building predicate
texts. -/
def sqStr : String := String.mk [quoteChar]

/-- A parse oracle that always fails (mismatched parentheses and the
like). -/
def parseStub : String → ParseResult := fun _ => .err "Invalid expression" "ParseError"

/-- A CSV row with every cell empty. -/
def rowEmpty : RawRow := {}

/-- The record the orchestrator produces for `rowEmpty`. -/
def recEmpty : QcRule :=
  { metadata := {}
    expression := {}
    semanticAnalysis := some
      { category := some "CONSISTENCY"
        subcategory := some "GENERAL_VALIDATION"
        description := "General data validation rule" } }

/-- A row whose predicate mentions `is null` but does not parse. -/
def rowC1 : RawRow := { expression := "value is null and ((" }

/-- A row whose predicate makes `float()` raise inside
`_extract_range_constraints`. -/
def rowC2 : RawRow := { expression := "x >= 1.2.3" }

/-- The spec's VALUE_LIST scenario row:
`status IN ('Active','Inactive')`. -/
def rowC5 : RawRow :=
  { expression := "status IN (" ++ sqStr ++ "Active" ++ sqStr ++ "," ++ sqStr ++ "Inactive"
      ++ sqStr ++ ")" }

/-- A parse oracle returning the tree sqlglot produces for the VALUE_LIST
scenario predicate: an `In` node (not a function, join or literal kind)
over the column and the two string literals. -/
def parseC5 : String → ParseResult := fun _ =>
  .ok (.otherNode "In" [.column { name := "status" } [],
    .litNode "Active" true [], .litNode "Inactive" true []])

/-- The spec's RANGE_CHECK scenario row: `a.value >= 0 AND a.value <= 100`. -/
def rowC7 : RawRow := { expression := "a.value >= 0 AND a.value <= 100" }

/-- A parse oracle returning the tree sqlglot produces for the RANGE_CHECK
scenario predicate: `And(GTE(column, 0), LTE(column, 100))`, all binary
operator nodes. -/
def parseC7 : String → ParseResult := fun _ =>
  .ok (.opNode "and"
    [.opNode "gte" [.column { table := "a", name := "value" } [], .litNode "0" false []],
     .opNode "lte" [.column { table := "a", name := "value" } [], .litNode "100" false []]])

/-- An expression whose predicate failed to parse, with text matching no
phase-2 pattern. -/
def exprParseFailPlain : ExpressionInfo :=
  { rawSql := "x", hasSql := true, sqlAnalysis := some (.failure "Invalid expression" "ParseError") }

/-- A successfully parsed analysis identifying exactly one column. -/
def anaOneColumn : SqlAnalysis :=
  { tables := [], columns := ["t.x"], joins := [], whereConditions := [], selectExpressions := []
    aggregations := [], functions := [], operators := [], literals := []
    subqueryCount := 0, complexityScore := 2 }

/-- An expression carrying `anaOneColumn` for a predicate `x is null`. -/
def exprOneColumn : ExpressionInfo :=
  { rawSql := "x is null", hasSql := true, sqlAnalysis := some (.success anaOneColumn) }

/-- The semantic dictionary right after categorization assigns NULL_CHECK
from the predicate text. -/
def semNullCheck : Semantic :=
  { category := some "NULL_CHECK", subcategory := some "NULL_VALIDATION"
    description := "Checks for null or missing values" }

end QC

namespace QC

/-! ### Shared lemmas -/

theorem mem_addSet (l : List String) (x k : String) : k ∈ addSet l x ↔ k ∈ l ∨ k = x := by
  unfold addSet
  split
  · next h =>
      refine ⟨fun hk => Or.inl hk, ?_⟩
      rintro (hk | rfl)
      · exact hk
      · simpa using h
  · simp

mutual
theorem walkAst_subqueries : (n : Ast) → (s : ExtractorState) →
    (walkAst n s).subqueries = s.subqueries + subCountA n
  | .table _ cs, s => by simp [walkAst, subCountA, walkList_subqueries cs]
  | .column _ cs, s => by simp [walkAst, subCountA, walkList_subqueries cs]
  | .join _ _ _ cs, s => by simp [walkAst, subCountA, walkList_subqueries cs]
  | .whereNode _ _ cs, s => by simp [walkAst, subCountA, walkList_subqueries cs]
  | .selectNode _ cs, s => by simp [walkAst, subCountA, walkList_subqueries cs]
  | .agg _ _ cs, s => by simp [walkAst, subCountA, walkList_subqueries cs]
  | .funcNode _ cs, s => by simp [walkAst, subCountA, walkList_subqueries cs]
  | .opNode _ cs, s => by simp [walkAst, subCountA, walkList_subqueries cs]
  | .litNode _ _ cs, s => by simp [walkAst, subCountA, walkList_subqueries cs]
  | .subquery cs, s => by simp [walkAst, subCountA, walkList_subqueries cs]; omega
  | .otherNode _ cs, s => by simp [walkAst, subCountA, walkList_subqueries cs]
theorem walkList_subqueries : (l : List Ast) → (s : ExtractorState) →
    (walkList l s).subqueries = s.subqueries + subCountL l
  | [], s => by simp [walkList, subCountL]
  | c :: cs, s => by
      simp [walkList, subCountL, walkList_subqueries cs, walkAst_subqueries c]; omega
end

mutual
theorem walkAst_aggregations : (n : Ast) → (s : ExtractorState) →
    (walkAst n s).aggregations = s.aggregations ++ aggItemsA n
  | .table _ cs, s => by simp [walkAst, aggItemsA, walkList_aggregations cs]
  | .column _ cs, s => by simp [walkAst, aggItemsA, walkList_aggregations cs]
  | .join _ _ _ cs, s => by simp [walkAst, aggItemsA, walkList_aggregations cs]
  | .whereNode _ _ cs, s => by simp [walkAst, aggItemsA, walkList_aggregations cs]
  | .selectNode _ cs, s => by simp [walkAst, aggItemsA, walkList_aggregations cs]
  | .agg _ _ cs, s => by simp [walkAst, aggItemsA, walkList_aggregations cs]
  | .funcNode _ cs, s => by simp [walkAst, aggItemsA, walkList_aggregations cs]
  | .opNode _ cs, s => by simp [walkAst, aggItemsA, walkList_aggregations cs]
  | .litNode _ _ cs, s => by simp [walkAst, aggItemsA, walkList_aggregations cs]
  | .subquery cs, s => by simp [walkAst, aggItemsA, walkList_aggregations cs]
  | .otherNode _ cs, s => by simp [walkAst, aggItemsA, walkList_aggregations cs]
theorem walkList_aggregations : (l : List Ast) → (s : ExtractorState) →
    (walkList l s).aggregations = s.aggregations ++ aggItemsL l
  | [], s => by simp [walkList, aggItemsL]
  | c :: cs, s => by
      simp [walkList, aggItemsL, walkList_aggregations cs, walkAst_aggregations c]
end

mutual
theorem walkAst_functions : (n : Ast) → (s : ExtractorState) → (k : String) →
    (k ∈ (walkAst n s).functions ↔ k ∈ s.functions ∨ k ∈ funcKindsA n)
  | .table _ cs, s, k => by simp [walkAst, funcKindsA, walkList_functions cs _ k]
  | .column _ cs, s, k => by simp [walkAst, funcKindsA, walkList_functions cs _ k]
  | .join _ _ _ cs, s, k => by simp [walkAst, funcKindsA, walkList_functions cs _ k]
  | .whereNode _ _ cs, s, k => by simp [walkAst, funcKindsA, walkList_functions cs _ k]
  | .selectNode _ cs, s, k => by simp [walkAst, funcKindsA, walkList_functions cs _ k]
  | .agg _ _ cs, s, k => by simp [walkAst, funcKindsA, walkList_functions cs _ k]
  | .funcNode kn cs, s, k => by
      simp [walkAst, funcKindsA, walkList_functions cs _ k, mem_addSet]; tauto
  | .opNode _ cs, s, k => by simp [walkAst, funcKindsA, walkList_functions cs _ k]
  | .litNode _ _ cs, s, k => by simp [walkAst, funcKindsA, walkList_functions cs _ k]
  | .subquery cs, s, k => by simp [walkAst, funcKindsA, walkList_functions cs _ k]
  | .otherNode _ cs, s, k => by simp [walkAst, funcKindsA, walkList_functions cs _ k]
theorem walkList_functions : (l : List Ast) → (s : ExtractorState) → (k : String) →
    (k ∈ (walkList l s).functions ↔ k ∈ s.functions ∨ k ∈ funcKindsL l)
  | [], s, k => by simp [walkList, funcKindsL]
  | c :: cs, s, k => by
      simp [walkList, funcKindsL, walkList_functions cs _ k, walkAst_functions c _ k]; tauto
end

end QC

namespace QC

theorem phase1_id (m : Metadata) (h : phase1Match m = false) (s : Semantic) :
    phase1Categorize m s = s := by
  unfold phase1Match at h
  simp only [Bool.or_eq_false_iff] at h
  obtain ⟨⟨⟨⟨⟨⟨⟨⟨h1a, h1b⟩, h2a, h2b⟩, h3a, h3b⟩, h4a, h4b⟩, h5a, h5b⟩, h6a, h6b⟩,
    h7a, h7b⟩, h8⟩ := h
  unfold phase1Categorize
  simp [h1a, h1b, h2a, h2b, h3a, h3b, h4a, h4b, h5a, h5b, h6a, h6b, h7a, h7b, h8]

theorem phase2_id (e : ExpressionInfo) (s : Semantic) (h : phase2Cond e = false) :
    phase2Categorize e s = s := by
  unfold phase2Cond at h
  simp only [Bool.and_eq_false_iff, Bool.or_eq_false_iff] at h
  unfold phase2Categorize
  rcases h with h | ⟨⟨⟨⟨⟨⟨⟨⟨⟨c1, c2⟩, c3⟩, c4⟩, c5⟩, c6⟩, c7⟩, c8⟩, c9⟩, c10⟩
  · simp [h]
  · simp only [decide_eq_false_iff_not] at c9 c10
    simp [c1, c2, c3, c4, c5, c6, c7, c8, c9, c10]

theorem defaultCategorize_isSome (s : Semantic) :
    (defaultCategorize s).category.isSome = true := by
  unfold defaultCategorize
  split
  · rfl
  · next h =>
      cases hc : s.category with
      | none => rw [hc] at h; simp at h
      | some c => rfl

theorem categorize_isSome (m : Metadata) (e : ExpressionInfo) (s : Semantic) :
    (categorizeQc m e s).category.isSome = true :=
  defaultCategorize_isSome _

theorem categorize_default (m : Metadata) (e : ExpressionInfo)
    (h1 : phase1Match m = false) (h2 : phase2Cond e = false) :
    categorizeQc m e initSemantic =
      { category := some "CONSISTENCY", subcategory := some "GENERAL_VALIDATION",
        description := "General data validation rule" } := by
  unfold categorizeQc
  rw [phase1_id m h1, phase2_id e initSemantic h2]
  rfl

theorem extractConstraints_ok_meta (m : Metadata) (e : ExpressionInfo) (s s2 : Semantic)
    (h : extractConstraints m e s = .ok s2) :
    s2.category = s.category ∧ s2.subcategory = s.subcategory := by
  simp only [extractConstraints] at h
  repeat' split at h
  all_goals first
    | exact Except.noConfusion h
    | (injection h with h2; subst h2; exact ⟨rfl, rfl⟩)

theorem analyze_ok (r rec : QcRule) (h : analyze r = .ok rec) :
    ∃ s2, extractConstraints r.metadata r.expression
        (categorizeQc r.metadata r.expression initSemantic) = .ok s2
      ∧ rec = { r with semanticAnalysis := some s2 } := by
  simp only [analyze] at h
  cases hx : extractConstraints r.metadata r.expression
      (categorizeQc r.metadata r.expression initSemantic) with
  | error err => rw [hx] at h; simp [Except.map] at h
  | ok s2 =>
      rw [hx] at h
      simp only [Except.map, Except.ok.injEq] at h
      exact ⟨s2, rfl, h.symm⟩

theorem categorize_range_text (m : Metadata) (e : ExpressionInfo)
    (h1 : phase1Match m = false) (h2 : e.hasSql = true)
    (h3 : strHas (pyLower e.rawSql) "is null" = false)
    (h4 : strHas (pyLower e.rawSql) "is not null" = false)
    (h5 : strHas (pyLower e.rawSql) " in (" = false)
    (h6 : (strHas (pyLower e.rawSql) "between" || strHas (pyLower e.rawSql) ">"
        || strHas (pyLower e.rawSql) "<" || strHas (pyLower e.rawSql) ">="
        || strHas (pyLower e.rawSql) "<=") = true) :
    categorizeQc m e initSemantic =
      { category := some "RANGE_CHECK", subcategory := some "NUMERIC_RANGE",
        description := "Validates numeric range constraints" } := by
  unfold categorizeQc
  rw [phase1_id m h1]
  unfold phase2Categorize
  simp [initSemantic, h2, h3, h4, h5, h6, defaultCategorize]

theorem extractConstraints_range_error (m : Metadata) (e : ExpressionInfo) (s : Semantic)
    (msg : String) (hcat : s.category = some "RANGE_CHECK")
    (herr : extractRangeConstraints (pyLower e.rawSql) = .error msg) :
    extractConstraints m e s = .error msg := by
  unfold extractConstraints
  simp [hcat, herr]

end QC

namespace QC

/-! ### Claim theorems -/

/-- Claim C1, counterexample: a rule row whose metadata matches no phase-1
keyword and whose predicate fails to parse (its `sqlAnalysis` is the
ParseFailure dictionary) does not receive the default category, contrary to
the claim: for the row with predicate `value is null and ((` and an always
failing parser, the phase-2 cascade still fires on the raw text and assigns
NULL_CHECK, not CONSISTENCY. -/
theorem c1_parse_failure_still_categorized :
    categoryOf (parseQcRule parseStub rowC1) = some "NULL_CHECK"
      ∧ ("NULL_CHECK" : String) ≠ "CONSISTENCY" :=
  ⟨by decide, by decide⟩

/-- Claim C1, amended: the phase-2 cascade is gated on `has_sql` (non-empty
predicate text), not on parse success.  For a rule with no phase-1 keyword
match whose `sqlAnalysis` is a ParseFailure, the three text-based phase-2
branches still run over the lower-cased predicate text; only the join- and
column-based branches can never fire (the failure dictionary carries no
`joins`/`columns`), so the assigned category is NULL_CHECK, VALUE_LIST or
RANGE_CHECK when the corresponding text pattern matches, and the CONSISTENCY
default only otherwise. -/
theorem c1_amended_phase2_gated_on_has_sql (m : Metadata) (e : ExpressionInfo)
    (msg kind : String) (h1 : phase1Match m = false) (h2 : e.hasSql = true)
    (h3 : e.sqlAnalysis = some (.failure msg kind)) :
    (categorizeQc m e initSemantic).category =
      some (if strHas (pyLower e.rawSql) "is null" || strHas (pyLower e.rawSql) "is not null"
          then "NULL_CHECK"
        else if strHas (pyLower e.rawSql) " in (" then "VALUE_LIST"
        else if strHas (pyLower e.rawSql) "between" || strHas (pyLower e.rawSql) ">"
            || strHas (pyLower e.rawSql) "<" || strHas (pyLower e.rawSql) ">="
            || strHas (pyLower e.rawSql) "<=" then "RANGE_CHECK"
        else "CONSISTENCY") := by
  have hj : analysisJoins e = [] := by simp [analysisJoins, h3]
  have hc : analysisColumns e = [] := by simp [analysisColumns, h3]
  unfold categorizeQc
  rw [phase1_id m h1]
  unfold phase2Categorize
  cases hb1 : strHas (pyLower e.rawSql) "is null" || strHas (pyLower e.rawSql) "is not null" with
  | true => simp [initSemantic, h2, hb1, defaultCategorize]
  | false =>
    cases hb2 : strHas (pyLower e.rawSql) " in (" with
    | true => simp [initSemantic, h2, hb1, hb2, defaultCategorize]
    | false =>
      cases hb3 : strHas (pyLower e.rawSql) "between" || strHas (pyLower e.rawSql) ">"
          || strHas (pyLower e.rawSql) "<" || strHas (pyLower e.rawSql) ">="
          || strHas (pyLower e.rawSql) "<=" with
      | true => simp [initSemantic, h2, hb1, hb2, hb3, defaultCategorize]
      | false => simp [initSemantic, h2, hb1, hb2, hb3, hj, hc, defaultCategorize]

/-- Witness for the amended C1 theorem at a concrete parse-failure row whose
text matches no phase-2 pattern: the category is the CONSISTENCY default. -/
theorem c1_amended_witness :
    phase1Match ({} : Metadata) = false
      ∧ exprParseFailPlain.hasSql = true
      ∧ exprParseFailPlain.sqlAnalysis = some (.failure "Invalid expression" "ParseError")
      ∧ (categorizeQc {} exprParseFailPlain initSemantic).category = some "CONSISTENCY" :=
  ⟨by decide, rfl, rfl,
    (c1_amended_phase2_gated_on_has_sql {} exprParseFailPlain "Invalid expression" "ParseError"
        (by decide) rfl rfl).trans (by decide)⟩

/-- Claim C2, failing input: the per-row transformation is not total.  For
the row whose predicate is `x >= 1.2.3` — whatever the SQL parser does with
it — phase 2 assigns RANGE_CHECK from the text, the range regex captures the
token `1.2.3`, and `float('1.2.3')` raises ValueError inside
`_extract_range_constraints`, so `_parse_qc_rule` propagates the exception
instead of returning an annotated record. -/
theorem c2_per_row_transform_raises (parse : String → ParseResult) :
    parseQcRule parse rowC2 = .error "ValueError: could not convert string to float: 1.2.3" := by
  have key : ∀ pr : ParseResult,
      analyze { metadata := {},
                expression := { rawSql := "x >= 1.2.3", hasSql := true,
                                sqlAnalysis := some (extract pr) } }
        = .error "ValueError: could not convert string to float: 1.2.3" := by
    intro pr
    simp only [analyze]
    rw [categorize_range_text {}
      { rawSql := "x >= 1.2.3", hasSql := true, sqlAnalysis := some (extract pr) }
      (by decide) rfl rfl rfl rfl rfl]
    rw [extractConstraints_range_error {}
      { rawSql := "x >= 1.2.3", hasSql := true, sqlAnalysis := some (extract pr) }
      _ "ValueError: could not convert string to float: 1.2.3" rfl (by rfl)]
    rfl
  exact key (parse "x >= 1.2.3")

/-- Witness for C2 at a concrete parse oracle. -/
theorem c2_witness :
    parseQcRule parseStub rowC2
      = .error "ValueError: could not convert string to float: 1.2.3" :=
  c2_per_row_transform_raises parseStub

/-- Claim C3, counterexample: node-kind handling in `_walk_ast` is an
`elif` chain, not additive.  Walking a lone COUNT call records it in
`aggregations` but adds nothing to `functions` (the claim requires
`functions` to contain the node kind `Count`). -/
theorem c3_aggregate_not_added_to_functions :
    extract (.ok (Ast.agg AggKind.count none []))
      = .success
          { tables := []
            columns := []
            joins := []
            whereConditions := []
            selectExpressions := []
            aggregations := [{ function := "Count", argument := none }]
            functions := []
            operators := []
            literals := []
            subqueryCount := 0
            complexityScore := 4 } := by decide

/-- Claim C3, amended: handling is mutually exclusive — the first matching
`isinstance` arm wins — but traversal does continue into every node's
children.  Over any tree: `aggregations` grows by exactly one entry per
aggregate node (children included), and `functions` receives exactly the
node kinds of the generic (non-aggregate) function-call nodes — an
aggregate call is never added to `functions`. -/
theorem c3_amended_walk_exclusive_but_visits_children (n : Ast) (s : ExtractorState) :
    (walkAst n s).aggregations = s.aggregations ++ aggItemsA n
      ∧ (∀ k, k ∈ (walkAst n s).functions ↔ k ∈ s.functions ∨ k ∈ funcKindsA n) :=
  ⟨walkAst_aggregations n s, fun k => walkAst_functions n s k⟩

/-- Witness for the amended C3 theorem on a COUNT node with a nested
generic function call. -/
theorem c3_amended_witness :
    ((walkAst (Ast.agg AggKind.count none [Ast.funcNode "Upper" []]) {}).aggregations
        = ({} : ExtractorState).aggregations
            ++ aggItemsA (Ast.agg AggKind.count none [Ast.funcNode "Upper" []]))
      ∧ (("Upper" ∈ (walkAst (Ast.agg AggKind.count none [Ast.funcNode "Upper" []]) {}).functions)
          ↔ "Upper" ∈ ({} : ExtractorState).functions
            ∨ "Upper" ∈ funcKindsA (Ast.agg AggKind.count none [Ast.funcNode "Upper" []])) :=
  ⟨(c3_amended_walk_exclusive_but_visits_children _ {}).1,
   (c3_amended_walk_exclusive_but_visits_children _ {}).2 "Upper"⟩

end QC

namespace QC

/-- Claim C4: for every analysis the extractor builds, the complexity score
is exactly the linear polynomial `2·|tables| + 5·|joins| +
3·|whereConditions| + 4·|aggregations| + 10·subqueryCount + 2·|functions|`
of the analysis's own counts; the polynomial is monotonically non-decreasing
in each count; and the statistics bucketing is `simple` below 10, `medium`
from 10 up to but excluding 30, `complex` from 30. -/
theorem c4_complexity_formula_and_buckets :
    (∀ st : ExtractorState,
        (buildAnalysis st).complexityScore
          = scoreFormula (buildAnalysis st).tables.length (buildAnalysis st).joins.length
              (buildAnalysis st).whereConditions.length (buildAnalysis st).aggregations.length
              (buildAnalysis st).subqueryCount (buildAnalysis st).functions.length)
      ∧ (∀ t j w a q f t2 j2 w2 a2 q2 f2, t ≤ t2 → j ≤ j2 → w ≤ w2 → a ≤ a2 → q ≤ q2 →
          f ≤ f2 → scoreFormula t j w a q f ≤ scoreFormula t2 j2 w2 a2 q2 f2)
      ∧ (∀ score : Nat, (score < 10 → complexityBucket score = "simple")
          ∧ (10 ≤ score → score < 30 → complexityBucket score = "medium")
          ∧ (30 ≤ score → complexityBucket score = "complex")) := by
  refine ⟨?_, ?_, ?_⟩
  · intro st
    simp only [buildAnalysis, calculateComplexity, scoreFormula, sortStrings,
      List.length_insertionSort]
    ring
  · intro t j w a q f t2 j2 w2 a2 q2 f2 h1 h2 h3 h4 h5 h6
    unfold scoreFormula
    omega
  · intro score
    refine ⟨fun h => ?_, fun h1 h2 => ?_, fun h => ?_⟩
    · simp [complexityBucket, h]
    · have hn : ¬ score < 10 := by omega
      simp [complexityBucket, hn, h2]
    · have hn : ¬ score < 10 := by omega
      have hn2 : ¬ score < 30 := by omega
      simp [complexityBucket, hn, hn2]

/-- Witness for C4: the formula at the empty state, one monotonicity
instance, and each bucket boundary. -/
theorem c4_witness :
    (buildAnalysis {}).complexityScore
        = scoreFormula (buildAnalysis {}).tables.length (buildAnalysis {}).joins.length
            (buildAnalysis {}).whereConditions.length (buildAnalysis {}).aggregations.length
            (buildAnalysis {}).subqueryCount (buildAnalysis {}).functions.length
      ∧ scoreFormula 1 1 1 1 1 1 ≤ scoreFormula 2 1 1 1 1 1
      ∧ complexityBucket 9 = "simple"
      ∧ complexityBucket 10 = "medium"
      ∧ complexityBucket 30 = "complex" :=
  ⟨c4_complexity_formula_and_buckets.1 {},
   c4_complexity_formula_and_buckets.2.1 1 1 1 1 1 1 2 1 1 1 1 1 (by decide) (by decide)
     (by decide) (by decide) (by decide) (by decide),
   (c4_complexity_formula_and_buckets.2.2 9).1 (by decide),
   (c4_complexity_formula_and_buckets.2.2 10).2.1 (by decide) (by decide),
   (c4_complexity_formula_and_buckets.2.2 30).2.2 (by decide)⟩

/-- Claim C5, counterexample: for the scenario row with predicate
`status IN ('Active','Inactive')` the single VALUE_LIST constraint holds
the lower-cased values `["active","inactive"]`, not the original-case
`["Active","Inactive"]` the claim requires: constraint extraction runs on
the lower-cased predicate text. -/
theorem c5_values_are_lowercased :
    constraintsOf (parseQcRule parseC5 rowC5)
        = some [Constraint.valueList ["active", "inactive"] "IN"]
      ∧ (["active", "inactive"] : List String) ≠ ["Active", "Inactive"] :=
  ⟨by decide, by decide⟩

/-- Claim C5, amended: the scenario row is categorized VALUE_LIST /
ALLOWED_VALUES with exactly one constraint whose values are the two quoted
values in order with operator IN — but lower-cased, because
`_extract_constraints` lower-cases the predicate before the IN-clause
scan. -/
theorem c5_amended_value_list_scenario :
    categoryOf (parseQcRule parseC5 rowC5) = some "VALUE_LIST"
      ∧ subcategoryOf (parseQcRule parseC5 rowC5) = some "ALLOWED_VALUES"
      ∧ constraintsOf (parseQcRule parseC5 rowC5)
          = some [Constraint.valueList ["active", "inactive"] "IN"] := by
  refine ⟨by decide, by decide, by decide⟩

/-- Claim C6: on a predicate whose parsing raises, `extract` returns the
failure dictionary carrying exactly the exception's message and class name
— by construction it has no structural fields — and it returns normally
(the exception never escapes): this holds whatever state the extractor
instance has accumulated, which is also left untouched. -/
theorem c6_parse_failure_reported (msg kind : String) (st : ExtractorState) :
    extractFrom st (.err msg kind) = (ExtractResult.failure msg kind, st)
      ∧ extract (.err msg kind) = .failure msg kind :=
  ⟨rfl, rfl⟩

/-- Witness for C6 at a concrete failing parse. -/
theorem c6_witness :
    extractFrom {} (.err "mismatched parentheses" "ParseError")
        = (ExtractResult.failure "mismatched parentheses" "ParseError", ({} : ExtractorState))
      ∧ extract (.err "mismatched parentheses" "ParseError")
        = .failure "mismatched parentheses" "ParseError" :=
  c6_parse_failure_reported "mismatched parentheses" "ParseError" {}

/-- Claim C7: the scenario row with predicate
`a.value >= 0 AND a.value <= 100` is categorized RANGE_CHECK /
NUMERIC_RANGE, and its constraints are exactly the two inclusive bounds
`{RANGE, value, MIN, 0, inclusive}` and `{RANGE, value, MAX, 100,
inclusive}` — the exclusive `>` and `<` patterns produce nothing for these
comparisons. -/
theorem c7_range_scenario :
    categoryOf (parseQcRule parseC7 rowC7) = some "RANGE_CHECK"
      ∧ subcategoryOf (parseQcRule parseC7 rowC7) = some "NUMERIC_RANGE"
      ∧ constraintsOf (parseQcRule parseC7 rowC7)
          = some [Constraint.range "value" "MIN" 0 true,
                  Constraint.range "value" "MAX" 100 true] := by
  refine ⟨by decide, by decide, by decide⟩

end QC

namespace QC

/-- Claim C8: whenever the per-row transformation returns a record, the
record's `sqlAnalysis` is `none` exactly when `hasPredicate` is false, the
semantic category is present (never null), and when no phase-1 keyword and
no phase-2 pattern matched it is the CONSISTENCY / GENERAL_VALIDATION
default. -/
theorem c8_record_invariants (parse : String → ParseResult) (row : RawRow) (rec : QcRule)
    (h : parseQcRule parse row = .ok rec) :
    (rec.expression.sqlAnalysis = none ↔ rec.expression.hasSql = false)
      ∧ ∃ sem, rec.semanticAnalysis = some sem
          ∧ sem.category.isSome = true
          ∧ (phase1Match rec.metadata = false → phase2Cond rec.expression = false →
              sem.category = some "CONSISTENCY"
                ∧ sem.subcategory = some "GENERAL_VALIDATION") := by
  simp only [parseQcRule] at h
  split at h
  case isTrue hs =>
    obtain ⟨s2, hx, hrec⟩ := analyze_ok _ _ h
    obtain ⟨hcat, hsub⟩ := extractConstraints_ok_meta _ _ _ _ hx
    subst hrec
    refine ⟨by simp [hs], s2, rfl, ?_, ?_⟩
    · rw [hcat]
      exact categorize_isSome _ _ _
    · intro hp1 hp2
      have hd := categorize_default _ _ hp1 hp2
      rw [hcat, hsub, hd]
      exact ⟨rfl, rfl⟩
  case isFalse hs =>
    obtain ⟨s2, hx, hrec⟩ := analyze_ok _ _ h
    obtain ⟨hcat, hsub⟩ := extractConstraints_ok_meta _ _ _ _ hx
    subst hrec
    refine ⟨by simpa using hs, s2, rfl, ?_, ?_⟩
    · rw [hcat]
      exact categorize_isSome _ _ _
    · intro hp1 hp2
      have hd := categorize_default _ _ hp1 hp2
      rw [hcat, hsub, hd]
      exact ⟨rfl, rfl⟩

/-- Witness for C8 on the all-empty row: no predicate, no keyword match,
so the record carries the CONSISTENCY default. -/
theorem c8_witness :
    parseQcRule parseStub rowEmpty = .ok recEmpty
      ∧ ((recEmpty.expression.sqlAnalysis = none ↔ recEmpty.expression.hasSql = false)
        ∧ ∃ sem, recEmpty.semanticAnalysis = some sem
            ∧ sem.category.isSome = true
            ∧ (phase1Match recEmpty.metadata = false → phase2Cond recEmpty.expression = false →
                sem.category = some "CONSISTENCY"
                  ∧ sem.subcategory = some "GENERAL_VALIDATION")) :=
  ⟨rfl, c8_record_invariants parseStub rowEmpty recEmpty rfl⟩

/-- Claim C9, counterexample: `extract` is not stateless per call on an
extractor instance.  Calling it a second time on the same instance with the
same parsed tree (one subquery node) does not return a bit-identical
analysis: the subquery counter was never reset, so the second result counts
two subqueries and doubles the complexity score. -/
theorem c9_second_call_not_identical :
    (extractFrom ((extractFrom {} (.ok (Ast.subquery []))).2) (.ok (Ast.subquery []))).1
      ≠ (extractFrom {} (.ok (Ast.subquery []))).1 := by decide

/-- Claim C9, amended: extraction is deterministic, and the orchestrator
constructs a fresh extractor per row, so per-row results are reproducible;
but the instance accumulators initialized in `__init__` are never reset, so
a second `extract` call on the same instance appends to the first call's
state: the subquery counter and the aggregation sequence double. -/
theorem c9_amended_instance_accumulates (n : Ast) :
    ((extractFrom ((extractFrom {} (.ok n)).2) (.ok n)).2).subqueries
        = 2 * ((extractFrom {} (.ok n)).2).subqueries
      ∧ ((extractFrom ((extractFrom {} (.ok n)).2) (.ok n)).2).aggregations
        = ((extractFrom {} (.ok n)).2).aggregations
            ++ ((extractFrom {} (.ok n)).2).aggregations := by
  constructor
  · show (walkAst n (walkAst n {})).subqueries = 2 * (walkAst n {}).subqueries
    rw [walkAst_subqueries n (walkAst n {}), walkAst_subqueries n {}]
    have h0 : ({} : ExtractorState).subqueries = 0 := rfl
    rw [h0]
    omega
  · show (walkAst n (walkAst n {})).aggregations
        = (walkAst n {}).aggregations ++ (walkAst n {}).aggregations
    rw [walkAst_aggregations n (walkAst n {}), walkAst_aggregations n {}]
    have h0 : ({} : ExtractorState).aggregations = [] := rfl
    rw [h0]
    simp

/-- Witness for the amended C9 theorem on a one-subquery tree. -/
theorem c9_amended_witness :
    ((extractFrom ((extractFrom {} (.ok (Ast.subquery []))).2) (.ok (Ast.subquery []))).2).subqueries
        = 2 * ((extractFrom {} (.ok (Ast.subquery []))).2).subqueries
      ∧ ((extractFrom ((extractFrom {} (.ok (Ast.subquery []))).2) (.ok (Ast.subquery []))).2).aggregations
        = ((extractFrom {} (.ok (Ast.subquery []))).2).aggregations
            ++ ((extractFrom {} (.ok (Ast.subquery []))).2).aggregations :=
  c9_amended_instance_accumulates (Ast.subquery [])

/-- Claim C10: when the assigned category is NULL_CHECK or CARDINALITY and
the rule's declared field is empty, exactly one NOT_NULL constraint is
emitted and its field is the empty string, whatever columns the parsed SQL
identified — the field name is never recovered from the predicate's column
references. -/
theorem c10_notnull_field_not_recovered (m : Metadata) (e : ExpressionInfo) (s : Semantic)
    (hf : m.field = "") (hcs : s.constraints = [])
    (hc : s.category = some "NULL_CHECK" ∨ s.category = some "CARDINALITY") :
    (extractConstraints m e s).map Semantic.constraints
      = .ok [Constraint.notNull "" true] := by
  have h1 : ¬ s.category = some "RANGE_CHECK" := by rcases hc with hc | hc <;> simp [hc]
  have h2 : ¬ s.category = some "VALUE_LIST" := by rcases hc with hc | hc <;> simp [hc]
  simp only [extractConstraints]
  rw [if_neg h1, if_neg h2, if_pos hc]
  simp [hf, hcs, Except.map]

/-- Witness for C10: a NULL_CHECK rule with blank field metadata whose
parsed predicate identifies exactly one column still gets the single
NOT_NULL constraint with an empty field. -/
theorem c10_witness :
    ({} : Metadata).field = ""
      ∧ semNullCheck.constraints = []
      ∧ (semNullCheck.category = some "NULL_CHECK" ∨ semNullCheck.category = some "CARDINALITY")
      ∧ anaOneColumn.columns.length = 1
      ∧ (extractConstraints {} exprOneColumn semNullCheck).map Semantic.constraints
          = .ok [Constraint.notNull "" true] :=
  ⟨rfl, rfl, Or.inl rfl, rfl,
    c10_notnull_field_not_recovered {} exprOneColumn semNullCheck rfl rfl (Or.inl rfl)⟩

end QC
